import Mathlib

/-!
Shallow embedding of `src/api/src/routes/user.rs` (lndhubx-diba): the HTTP
endpoints that build a correlation-tagged request message, send it on the
internal bus inside an `Envelope`, and await a matching reply under a
5-second deadline.

Rust machine types are modelled as: `Uuid` and `u64`/`u128` as `Nat`
(opaque tokens / counters; no arithmetic overflow occurs in the modelled
code), `rust_decimal::Decimal` as `Rat` (exact ordered comparisons, which
is all the code does with amounts), Rust `String` as `List Char` with
`.len()` as its UTF-8 byte count.

Effects are made explicit: each endpoint is a pure function of the minted
correlation id, the validated input data, the outcome of the transport
send, and the outcome of the `timeout(recv)` race; it returns a trace
recording the HTTP result, the envelope passed to the transport send (if
any), the capacity passed to the channel allocation (if reached) and the
deadline passed to `timeout` (if reached).
-/

namespace Lndhubx

/-- `uuid::Uuid`, an opaque 128-bit correlation token; modelled as `Nat`. -/
abbrev Uuid := Nat

/-- `rust_decimal::Decimal`; the code only compares amounts with `<=`,
modelled exactly by `Rat`. -/
abbrev Decimal := Rat

/-- `core_types::Currency` (crate not under `src/`); the code only
constructs the default `Currency::BTC` and passes values through. -/
inductive Currency where
  | BTC
  | USD
  | EUR
deriving DecidableEq

/-- A Rust `String`, as its characters. -/
abbrev Str := List Char

/-- Rust `str::len()`: the UTF-8 byte count. -/
def strLen (s : Str) : Nat := (s.map Char.utf8Size).sum

/- Request message payloads, translated field-for-field from
`src/api/src/routes/user.rs` (their struct definitions live in the `msgs`
crate, but every field and its construction is visible at the call sites). -/

structure GetBalances where
  req_id : Uuid
  uid : Nat
deriving DecidableEq

structure PaymentRequest where
  currency : Currency
  req_id : Uuid
  uid : Nat
  payment_request : Option Str
  rate : Option Decimal
  amount : Option Decimal
  receipient : Option Str
  fees : Option Decimal
deriving DecidableEq

structure InvoiceRequest where
  req_id : Uuid
  meta : Str
  uid : Nat
  currency : Currency
  account_id : Option Uuid
  amount : Decimal
  target_account_currency : Option Currency
deriving DecidableEq

structure SwapRequest where
  req_id : Uuid
  uid : Nat
  from_ : Currency
  to_ : Currency
  amount : Decimal
  quote_id : Option Nat
deriving DecidableEq

structure QuoteRequest where
  req_id : Uuid
  uid : Nat
  from_ : Currency
  to_ : Currency
  amount : Decimal
deriving DecidableEq

structure AvailableCurrenciesRequest where
  req_id : Uuid
deriving DecidableEq

structure GetNodeInfoRequest where
  req_id : Uuid
deriving DecidableEq

structure QueryRouteRequest where
  req_id : Uuid
  payment_request : Str
  max_fee : Option Decimal
deriving DecidableEq

/- Response message payloads. Modelled from the spec: the response structs
live in the `msgs` crate, which is not under `src/`; the spec states that
every response variant carries the correlation identifier (`req_id`) of the
request it answers, and `req_id` is the only field the visible code reads. -/

/-- Modelled from the spec: the `Balances` response carries its request's
correlation id. -/
structure Balances where
  req_id : Uuid
deriving DecidableEq

/-- Modelled from the spec: the `PaymentResponse` carries its request's
correlation id. -/
structure PaymentResponse where
  req_id : Uuid
deriving DecidableEq

/-- Modelled from the spec: the `InvoiceResponse` carries its request's
correlation id. -/
structure InvoiceResponse where
  req_id : Uuid
deriving DecidableEq

/-- Modelled from the spec: the `SwapResponse` carries its request's
correlation id. -/
structure SwapResponse where
  req_id : Uuid
deriving DecidableEq

/-- Modelled from the spec: the `QuoteResponse` carries its request's
correlation id. -/
structure QuoteResponse where
  req_id : Uuid
deriving DecidableEq

/-- Modelled from the spec: the `AvailableCurrenciesResponse` carries its
request's correlation id. -/
structure AvailableCurrenciesResponse where
  req_id : Uuid
deriving DecidableEq

/-- Modelled from the spec: the `GetNodeInfoResponse` carries its request's
correlation id. -/
structure GetNodeInfoResponse where
  req_id : Uuid
deriving DecidableEq

/-- Modelled from the spec: the `QueryRouteResponse` carries its request's
correlation id. -/
structure QueryRouteResponse where
  req_id : Uuid
deriving DecidableEq

/-- `msgs::api::Api`: the request and response variants used in
`user.rs`. -/
inductive Api where
  | GetBalances (g : GetBalances)
  | Balances (b : Balances)
  | PaymentRequest (p : PaymentRequest)
  | PaymentResponse (r : PaymentResponse)
  | InvoiceRequest (i : InvoiceRequest)
  | InvoiceResponse (r : InvoiceResponse)
  | SwapRequest (s : SwapRequest)
  | SwapResponse (r : SwapResponse)
  | QuoteRequest (q : QuoteRequest)
  | QuoteResponse (r : QuoteResponse)
  | AvailableCurrenciesRequest (q : AvailableCurrenciesRequest)
  | AvailableCurrenciesResponse (r : AvailableCurrenciesResponse)
  | GetNodeInfoRequest (q : GetNodeInfoRequest)
  | GetNodeInfoResponse (r : GetNodeInfoResponse)
  | QueryRouteRequest (q : QueryRouteRequest)
  | QueryRouteResponse (r : QueryRouteResponse)
deriving DecidableEq

/-- `msgs::Message`: the wrapper the bus carries (only the `Api` arm is
used in `user.rs`). -/
inductive Message where
  | Api (a : Api)
deriving DecidableEq

/-- The correlation id embedded in an `Api` message (every variant carries
one). -/
def Api.reqId : Api → Uuid
  | .GetBalances g => g.req_id
  | .Balances b => b.req_id
  | .PaymentRequest p => p.req_id
  | .PaymentResponse r => r.req_id
  | .InvoiceRequest i => i.req_id
  | .InvoiceResponse r => r.req_id
  | .SwapRequest s => s.req_id
  | .SwapResponse r => r.req_id
  | .QuoteRequest q => q.req_id
  | .QuoteResponse r => r.req_id
  | .AvailableCurrenciesRequest q => q.req_id
  | .AvailableCurrenciesResponse r => r.req_id
  | .GetNodeInfoRequest q => q.req_id
  | .GetNodeInfoResponse r => r.req_id
  | .QueryRouteRequest q => q.req_id
  | .QueryRouteResponse r => r.req_id

/- Error taxonomy (`xerror::api`, with exactly the variants `user.rs`
constructs). -/

inductive CommsError where
  | FailedToSendMessage
  | ServerResponseTimeout
deriving DecidableEq

inductive RequestError where
  | InvalidDataSupplied
deriving DecidableEq

inductive DbError where
  | DbConnectionError
  | CouldNotFetchData
  | UserDoesNotExist
  | UpdateFailed
deriving DecidableEq

inductive ApiError where
  | Comms (e : CommsError)
  | Request (e : RequestError)
  | Db (e : DbError)
deriving DecidableEq

/- HTTP results. The endpoints return either an `ApiError` (translated by
the excluded actix layer) or `HttpResponse::Ok().json(body)`. -/

/-- The distinct JSON bodies `user.rs` serialises into a 200 response. -/
inductive JsonBody where
  | balances (b : Balances)
  | paymentResponse (r : PaymentResponse)
  | invoiceResponse (r : InvoiceResponse)
  | swapResponse (r : SwapResponse)
  | quoteResponse (r : QuoteResponse)
  | availableCurrenciesResponse (r : AvailableCurrenciesResponse)
  | nodeInfoResponse (r : GetNodeInfoResponse)
  | queryRouteResponse (r : QueryRouteResponse)
  | errorText (s : String)
deriving DecidableEq

/-- An actix `HttpResponse` as built here: always `Ok().json(...)`. -/
inductive HttpResponse where
  | okJson (body : JsonBody)
deriving DecidableEq

/- Response filters: the `Box<dyn Fn(&Message) -> bool>` closures, one per
endpoint, translated with exactly the captures the Rust closures move in. -/

/-- `balance`'s closure: captures `get_balances` and `req_id`; its guard is
`get_balances.req_id == req_id` (the request's own id against the minted
id — it never reads the inbound message's embedded id). -/
def balanceResponseFilter (get_balances : GetBalances) (req_id : Uuid) :
    Message → Bool := fun message =>
  match message with
  | Message.Api (Api.Balances _balances) => get_balances.req_id == req_id
  | _ => false

/-- `pay_invoice`'s closure: `PaymentResponse` with `response.req_id == req_id`. -/
def payInvoiceResponseFilter (req_id : Uuid) : Message → Bool := fun message =>
  match message with
  | Message.Api (Api.PaymentResponse response) => response.req_id == req_id
  | _ => false

/-- `add_invoice`'s closure: `InvoiceResponse` with `invoice.req_id == req_id`. -/
def addInvoiceResponseFilter (req_id : Uuid) : Message → Bool := fun message =>
  match message with
  | Message.Api (Api.InvoiceResponse invoice) => invoice.req_id == req_id
  | _ => false

/-- `swap`'s closure: `SwapResponse` with `swap_response.req_id == req_id`. -/
def swapResponseFilter (req_id : Uuid) : Message → Bool := fun message =>
  match message with
  | Message.Api (Api.SwapResponse swap_response) => swap_response.req_id == req_id
  | _ => false

/-- `quote`'s closure: `QuoteResponse` with `quote_response.req_id == req_id`. -/
def quoteResponseFilter (req_id : Uuid) : Message → Bool := fun message =>
  match message with
  | Message.Api (Api.QuoteResponse quote_response) => quote_response.req_id == req_id
  | _ => false

/-- `get_available_currencies`'s closure: `AvailableCurrenciesResponse`
with `response.req_id == req_id`. -/
def availableCurrenciesResponseFilter (req_id : Uuid) : Message → Bool := fun message =>
  match message with
  | Message.Api (Api.AvailableCurrenciesResponse response) => response.req_id == req_id
  | _ => false

/-- `get_node_info`'s closure: `GetNodeInfoResponse` with
`response.req_id == req_id`. -/
def nodeInfoResponseFilter (req_id : Uuid) : Message → Bool := fun message =>
  match message with
  | Message.Api (Api.GetNodeInfoResponse response) => response.req_id == req_id
  | _ => false

/-- `get_query_route`'s closure: `QueryRouteResponse` with
`response.req_id == req_id`. -/
def queryRouteResponseFilter (req_id : Uuid) : Message → Bool := fun message =>
  match message with
  | Message.Api (Api.QueryRouteResponse response) => response.req_id == req_id
  | _ => false

/- The per-endpoint reply patterns: each endpoint's final
`if let Ok(Some(Ok(Message::Api(Api::K(x))))) = timeout(...).await` matches
one response variant and serialises its payload. -/

def balanceExtract : Message → Option JsonBody
  | Message.Api (Api.Balances balances) => some (JsonBody.balances balances)
  | _ => none

def payInvoiceExtract : Message → Option JsonBody
  | Message.Api (Api.PaymentResponse response) => some (JsonBody.paymentResponse response)
  | _ => none

def addInvoiceExtract : Message → Option JsonBody
  | Message.Api (Api.InvoiceResponse invoice) => some (JsonBody.invoiceResponse invoice)
  | _ => none

def swapExtract : Message → Option JsonBody
  | Message.Api (Api.SwapResponse swap_response) => some (JsonBody.swapResponse swap_response)
  | _ => none

def quoteExtract : Message → Option JsonBody
  | Message.Api (Api.QuoteResponse quote_response) => some (JsonBody.quoteResponse quote_response)
  | _ => none

def availableCurrenciesExtract : Message → Option JsonBody
  | Message.Api (Api.AvailableCurrenciesResponse response) =>
      some (JsonBody.availableCurrenciesResponse response)
  | _ => none

def nodeInfoExtract : Message → Option JsonBody
  | Message.Api (Api.GetNodeInfoResponse response) => some (JsonBody.nodeInfoResponse response)
  | _ => none

def queryRouteExtract : Message → Option JsonBody
  | Message.Api (Api.QueryRouteResponse response) => some (JsonBody.queryRouteResponse response)
  | _ => none

/-- The `Envelope` handed to `web_sender.send`: the outbound message, the
capacity-one channel's send half, and the response filter. -/
structure Envelope where
  message : Message
  response_tx : Option Unit
  response_filter : Option (Message → Bool)

/-- The outcome of `timeout(Duration::from_secs(5), response_rx.recv()).await`,
whose Rust type is `Result<Option<Result<Message, E>>, Elapsed>`:
`timedOut` is `Err(Elapsed)` (the deadline fired), the other three arrive
before the deadline: `closed` is `Ok(None)` (channel closed),
`deliveredErr` is `Ok(Some(Err(_)))`, `delivered m` is `Ok(Some(Ok(m)))`. -/
inductive RecvOutcome where
  | timedOut
  | closed
  | deliveredErr
  | delivered (m : Message)
deriving DecidableEq

/-- The reply the endpoint's `if let` pattern accepts, if any: a value
delivered before the deadline that matches the expected response variant. -/
def matchedReply (extract : Message → Option JsonBody) : RecvOutcome → Option JsonBody
  | RecvOutcome.delivered m => extract m
  | _ => none

/-- What one endpoint call did: its HTTP result, the envelope passed to the
transport send (none if the call returned before sending), the capacity
passed to `mpsc::channel` (none if never allocated), the seconds passed to
`timeout` (none if the await was never reached), and whether the reply
channel was awaited. -/
structure EndpointTrace where
  result : Except ApiError HttpResponse
  sent : Option Envelope
  channelCapacity : Option Nat
  deadlineSecs : Option Nat
  awaited : Bool

/-- An early `return Err(ApiError::Request(RequestError::InvalidDataSupplied))`:
no channel, no envelope, no await. -/
def invalidDataTrace : EndpointTrace :=
  { result := Except.error (ApiError.Request RequestError.InvalidDataSupplied)
    sent := none
    channelCapacity := none
    deadlineSecs := none
    awaited := false }

/-- The shared tail of every request/response endpoint: allocate
`mpsc::channel(capacity)`, send the `Envelope` (on failure return
`FailedToSendMessage` at once), then race `recv` against
`timeout(deadline)` and translate the outcome. Each endpoint passes its
own literals (`1` and `5` at every call site in `user.rs`). -/
def sendAndAwait (capacity deadline : Nat) (message : Message)
    (response_filter : Message → Bool) (extract : Message → Option JsonBody)
    (sendResult : Except Unit Unit) (o : RecvOutcome) : EndpointTrace :=
  let envelope : Envelope :=
    { message := message
      response_tx := some ()
      response_filter := some response_filter }
  match sendResult with
  | Except.error _ =>
      { result := Except.error (ApiError.Comms CommsError.FailedToSendMessage)
        sent := some envelope
        channelCapacity := some capacity
        deadlineSecs := none
        awaited := false }
  | Except.ok _ =>
      match matchedReply extract o with
      | some body =>
          { result := Except.ok (HttpResponse.okJson body)
            sent := some envelope
            channelCapacity := some capacity
            deadlineSecs := some deadline
            awaited := true }
      | none =>
          { result := Except.error (ApiError.Comms CommsError.ServerResponseTimeout)
            sent := some envelope
            channelCapacity := some capacity
            deadlineSecs := some deadline
            awaited := true }

/- The endpoints. Each takes the authenticated uid (where the route reads
one), the freshly minted `req_id` (`Uuid::new_v4()` — the mint itself is
IO; the embedding is parametric in the minted value), the deserialized
input data, and the two effect outcomes. -/

/-- `GET /balance` (`user.rs` lines 35-66). -/
def balance (uid : Nat) (req_id : Uuid)
    (sendResult : Except Unit Unit) (o : RecvOutcome) : EndpointTrace :=
  let get_balances : GetBalances := { req_id := req_id, uid := uid }
  let response_filter := balanceResponseFilter get_balances req_id
  let message := Message.Api (Api.GetBalances get_balances)
  sendAndAwait 1 5 message response_filter balanceExtract sendResult o

/-- `PayInvoiceData`, the `POST /payinvoice` body. -/
structure PayInvoiceData where
  payment_request : Option Str
  currency : Option Currency
  recipient : Option Str
  amount : Option Decimal

/-- `if let Some(amount) = data.amount { if amount <= dec!(0) { ... } }`. -/
def amountNonPositive : Option Decimal → Bool
  | some amount => decide (amount ≤ 0)
  | none => false

/-- `if let Some(s) = field { if s.len() > limit { ... } }`. -/
def strTooLong (limit : Nat) : Option Str → Bool
  | some s => decide (limit < strLen s)
  | none => false

/-- The body of `json!({"error": "..."})` at `user.rs` line 122. -/
def payNoTargetText : String := "You have to specify either an invoice or a receipient"

/-- `POST /payinvoice` (`user.rs` lines 76-148). -/
def pay_invoice (uid : Nat) (req_id : Uuid) (d : PayInvoiceData)
    (sendResult : Except Unit Unit) (o : RecvOutcome) : EndpointTrace :=
  if amountNonPositive d.amount then invalidDataTrace
  else if strTooLong 128 d.recipient then invalidDataTrace
  else if strTooLong 1024 d.payment_request then invalidDataTrace
  else
    let currency := d.currency.getD Currency.BTC
    let payment_request : PaymentRequest :=
      { currency := currency
        req_id := req_id
        uid := uid
        payment_request := d.payment_request
        rate := none
        amount := d.amount
        receipient := d.recipient
        fees := none }
    if d.payment_request.isNone && d.recipient.isNone then
      { result := Except.ok (HttpResponse.okJson (JsonBody.errorText payNoTargetText))
        sent := none
        channelCapacity := none
        deadlineSecs := none
        awaited := false }
    else
      sendAndAwait 1 5 (Message.Api (Api.PaymentRequest payment_request))
        (payInvoiceResponseFilter req_id) payInvoiceExtract sendResult o

/-- `CreateInvoiceParams`, the `GET /addinvoice` query. -/
structure CreateInvoiceParams where
  amount : Decimal
  meta : Option Str
  account_id : Option Uuid
  currency : Option Currency
  target_account_currency : Option Currency

/-- `GET /addinvoice` (`user.rs` lines 159-220). -/
def add_invoice (uid : Nat) (req_id : Uuid) (query : CreateInvoiceParams)
    (sendResult : Except Unit Unit) (o : RecvOutcome) : EndpointTrace :=
  if decide (query.amount ≤ 0) then invalidDataTrace
  else
    let meta := query.meta.getD "Lndhubx Invoice".toList
    if decide (128 < strLen meta) then invalidDataTrace
    else
      let currency := query.currency.getD Currency.BTC
      let invoice_request : InvoiceRequest :=
        { req_id := req_id
          meta := meta
          uid := uid
          currency := currency
          account_id := query.account_id
          amount := query.amount
          target_account_currency := query.target_account_currency }
      sendAndAwait 1 5 (Message.Api (Api.InvoiceRequest invoice_request))
        (addInvoiceResponseFilter req_id) addInvoiceExtract sendResult o

/-- `SwapData`, the `POST /swap` body. -/
structure SwapData where
  from_currency : Currency
  to_currency : Currency
  amount : Decimal
  quote_id : Option Nat

/-- `POST /swap` (`user.rs` lines 230-272). -/
def swap (uid : Nat) (req_id : Uuid) (data : SwapData)
    (sendResult : Except Unit Unit) (o : RecvOutcome) : EndpointTrace :=
  if decide (data.amount ≤ 0) then invalidDataTrace
  else
    let swap_request : SwapRequest :=
      { req_id := req_id
        uid := uid
        from_ := data.from_currency
        to_ := data.to_currency
        amount := data.amount
        quote_id := data.quote_id }
    sendAndAwait 1 5 (Message.Api (Api.SwapRequest swap_request))
      (swapResponseFilter req_id) swapExtract sendResult o

/-- `QuoteParams`, the `GET /quote` query. -/
structure QuoteParams where
  from_currency : Currency
  to_currency : Currency
  amount : Decimal

/-- `GET /quote` (`user.rs` lines 295-340). -/
def quote (uid : Nat) (req_id : Uuid) (query : QuoteParams)
    (sendResult : Except Unit Unit) (o : RecvOutcome) : EndpointTrace :=
  if decide (query.amount ≤ 0) then invalidDataTrace
  else
    let quote_request : QuoteRequest :=
      { req_id := req_id
        uid := uid
        from_ := query.from_currency
        to_ := query.to_currency
        amount := query.amount }
    sendAndAwait 1 5 (Message.Api (Api.QuoteRequest quote_request))
      (quoteResponseFilter req_id) quoteExtract sendResult o

/-- `GET /getavailablecurrencies` (`user.rs` lines 377-406). -/
def get_available_currencies (req_id : Uuid)
    (sendResult : Except Unit Unit) (o : RecvOutcome) : EndpointTrace :=
  let request : AvailableCurrenciesRequest := { req_id := req_id }
  sendAndAwait 1 5 (Message.Api (Api.AvailableCurrenciesRequest request))
    (availableCurrenciesResponseFilter req_id) availableCurrenciesExtract sendResult o

/-- `GET /nodeinfo` (`user.rs` lines 408-438). -/
def get_node_info (req_id : Uuid)
    (sendResult : Except Unit Unit) (o : RecvOutcome) : EndpointTrace :=
  let request : GetNodeInfoRequest := { req_id := req_id }
  sendAndAwait 1 5 (Message.Api (Api.GetNodeInfoRequest request))
    (nodeInfoResponseFilter req_id) nodeInfoExtract sendResult o

/-- `QueryRouteParams`, the `GET /query_route` query. -/
structure QueryRouteParams where
  payment_request : Str
  max_fee : Option Decimal

/-- `GET /query_route` (`user.rs` lines 446-481). -/
def get_query_route (req_id : Uuid) (params : QueryRouteParams)
    (sendResult : Except Unit Unit) (o : RecvOutcome) : EndpointTrace :=
  let request : QueryRouteRequest :=
    { req_id := req_id
      payment_request := params.payment_request
      max_fee := params.max_fee }
  sendAndAwait 1 5 (Message.Api (Api.QueryRouteRequest request))
    (queryRouteResponseFilter req_id) queryRouteExtract sendResult o

/-- Modelled from the spec: the capacity-one delivery channel
(`tokio::sync::mpsc::channel(1)`, outside `src/`) — a bounded buffer whose
send fails when the buffer already holds `capacity` values, so with
capacity one it "accepts and transports at most one value". -/
def channelSend (capacity : Nat) (buf : List Message) (m : Message) :
    Option (List Message) :=
  if buf.length < capacity then some (buf ++ [m]) else none

/- `GET /search_user` (`user.rs` lines 488-516). -/

/-- `user.rs` line 33. -/
def MINIMUM_PATTERN_LENGTH : Nat := 3

/-- Rust `str::replace(from: char, to: &str)`: every occurrence of the
character is replaced by the replacement string, left to right. -/
def replaceChar (target : Char) (rep : Str) : Str → Str
  | [] => []
  | c :: rest =>
      if c = target then rep ++ replaceChar target rep rest
      else c :: replaceChar target rep rest

/-- `params.text.replace('%', "\\%").replace('_', "\\_")` — the two
sequential replacements of `user.rs` line 498. -/
def escapeSearchText (text : Str) : Str :=
  replaceChar '_' ['\\', '_'] (replaceChar '%' ['\\', '%'] text)

/-- The database user rows (`models` crate, outside `src/`): the two fields
the route reads. -/
structure DbUser where
  uid : Nat
  username : Str
deriving DecidableEq

/-- `ShareableUser` as built at `user.rs` lines 506-509. -/
structure ShareableUser where
  uid : Nat
  username : Str
deriving DecidableEq

/-- The outcomes of the database interaction: `pool.try_get()` failing,
`User::search_by_username_fragment` failing, or a row list. -/
inductive SearchDb where
  | noConn
  | queryFailed
  | found (users : List DbUser)

/-- What one `search_user` call did: its result, and the pattern passed to
`User::search_by_username_fragment`, if the search was reached. -/
structure SearchTrace where
  result : Except ApiError (List ShareableUser)
  queried : Option Str

/-- `GET /search_user`: length gate, LIKE-wildcard escaping, then the
database search. -/
def search_user (text : Str) (db : SearchDb) : SearchTrace :=
  if strLen text < MINIMUM_PATTERN_LENGTH then
    { result := Except.error (ApiError.Request RequestError.InvalidDataSupplied)
      queried := none }
  else
    let escaped := escapeSearchText text
    match db with
    | SearchDb.noConn =>
        { result := Except.error (ApiError.Db DbError.DbConnectionError)
          queried := none }
    | SearchDb.queryFailed =>
        { result := Except.error (ApiError.Db DbError.UserDoesNotExist)
          queried := some escaped }
    | SearchDb.found users =>
        { result := Except.ok (users.map fun user =>
            { uid := user.uid, username := user.username })
          queried := some escaped }

/-- The claim's phrasing of the escaping, as one simultaneous pass: every
`%` becomes `\%`, every `_` becomes `\_`, all other characters stand. -/
def escapeSearchTextSpec : Str → Str
  | [] => []
  | c :: rest =>
      (if c = '%' then ['\\', '%']
       else if c = '_' then ['\\', '_']
       else [c]) ++ escapeSearchTextSpec rest

/- ------------------------------------------------------------------ -/
/- Helper lemmas shared across the claims.                             -/
/- ------------------------------------------------------------------ -/

/-- On transport failure, `sendAndAwait` returns `FailedToSendMessage`
without reaching the await. -/
theorem sendAndAwait_send_error (cap dl : Nat) (msg : Message)
    (rf : Message → Bool) (ex : Message → Option JsonBody) (o : RecvOutcome) :
    sendAndAwait cap dl msg rf ex (Except.error ()) o =
      { result := Except.error (ApiError.Comms CommsError.FailedToSendMessage)
        sent := some { message := msg, response_tx := some (), response_filter := some rf }
        channelCapacity := some cap
        deadlineSecs := none
        awaited := false } := rfl

/-- The envelope `sendAndAwait` hands to the transport, for every send
outcome and await outcome. -/
theorem sendAndAwait_sent (cap dl : Nat) (msg : Message)
    (rf : Message → Bool) (ex : Message → Option JsonBody)
    (sr : Except Unit Unit) (o : RecvOutcome) :
    (sendAndAwait cap dl msg rf ex sr o).sent =
      some { message := msg, response_tx := some (), response_filter := some rf } := by
  cases sr with
  | error e => rfl
  | ok u => cases h : matchedReply ex o <;> simp [sendAndAwait, h]

/-- The channel capacity `sendAndAwait` records, for every outcome. -/
theorem sendAndAwait_capacity (cap dl : Nat) (msg : Message)
    (rf : Message → Bool) (ex : Message → Option JsonBody)
    (sr : Except Unit Unit) (o : RecvOutcome) :
    (sendAndAwait cap dl msg rf ex sr o).channelCapacity = some cap := by
  cases sr with
  | error e => rfl
  | ok u => cases h : matchedReply ex o <;> simp [sendAndAwait, h]

/-- Whenever `sendAndAwait` reaches the `timeout(...)` race, the deadline it
races with is the one passed at the call site. -/
theorem sendAndAwait_deadline (cap dl : Nat) (msg : Message)
    (rf : Message → Bool) (ex : Message → Option JsonBody)
    (sr : Except Unit Unit) (o : RecvOutcome) (d : Nat) :
    (sendAndAwait cap dl msg rf ex sr o).deadlineSecs = some d → d = dl := by
  cases sr with
  | error e => intro h; simp [sendAndAwait] at h
  | ok u =>
      cases h : matchedReply ex o <;> intro hd <;>
        simp [sendAndAwait, h] at hd <;> omega

/-- After a successful send, `sendAndAwait` always reaches the race and
records the call site's deadline. -/
theorem sendAndAwait_deadline_ok (cap dl : Nat) (msg : Message)
    (rf : Message → Bool) (ex : Message → Option JsonBody) (o : RecvOutcome) :
    (sendAndAwait cap dl msg rf ex (Except.ok ()) o).deadlineSecs = some dl := by
  cases h : matchedReply ex o <;> simp [sendAndAwait, h]

/-- Once the await is reached, `ServerResponseTimeout` is returned exactly
when the race did not yield a delivered message matching the endpoint's
expected reply pattern. -/
theorem sendAndAwait_timeout_iff (cap dl : Nat) (msg : Message)
    (rf : Message → Bool) (ex : Message → Option JsonBody)
    (sr : Except Unit Unit) (o : RecvOutcome) :
    (sendAndAwait cap dl msg rf ex sr o).awaited = true →
      ((sendAndAwait cap dl msg rf ex sr o).result
          = Except.error (ApiError.Comms CommsError.ServerResponseTimeout)
        ↔ matchedReply ex o = none) := by
  cases sr with
  | error e => intro h; simp [sendAndAwait] at h
  | ok u =>
      cases h : matchedReply ex o with
      | none => intro _; simp [sendAndAwait, h]
      | some body => intro _; simp [sendAndAwait, h]

/-- `pay_invoice` either rejects the input, answers the missing-target 200
directly, or runs the shared send-and-await tail on the payload built from
its input and the minted id. -/
theorem pay_invoice_cases (uid : Nat) (rid : Uuid) (d : PayInvoiceData)
    (sr : Except Unit Unit) (o : RecvOutcome) :
    pay_invoice uid rid d sr o = invalidDataTrace
  ∨ pay_invoice uid rid d sr o =
      { result := Except.ok (HttpResponse.okJson (JsonBody.errorText payNoTargetText))
        sent := none, channelCapacity := none, deadlineSecs := none, awaited := false }
  ∨ pay_invoice uid rid d sr o =
      sendAndAwait 1 5 (Message.Api (Api.PaymentRequest
        { currency := d.currency.getD Currency.BTC
          req_id := rid
          uid := uid
          payment_request := d.payment_request
          rate := none
          amount := d.amount
          receipient := d.recipient
          fees := none }))
        (payInvoiceResponseFilter rid) payInvoiceExtract sr o := by
  unfold pay_invoice
  split
  · exact Or.inl rfl
  · split
    · exact Or.inl rfl
    · split
      · exact Or.inl rfl
      · split
        · exact Or.inr (Or.inl rfl)
        · exact Or.inr (Or.inr rfl)

/-- `add_invoice` either rejects the input or runs the shared tail on the
payload built from its input and the minted id. -/
theorem add_invoice_cases (uid : Nat) (rid : Uuid) (query : CreateInvoiceParams)
    (sr : Except Unit Unit) (o : RecvOutcome) :
    add_invoice uid rid query sr o = invalidDataTrace
  ∨ add_invoice uid rid query sr o =
      sendAndAwait 1 5 (Message.Api (Api.InvoiceRequest
        { req_id := rid
          meta := query.meta.getD "Lndhubx Invoice".toList
          uid := uid
          currency := query.currency.getD Currency.BTC
          account_id := query.account_id
          amount := query.amount
          target_account_currency := query.target_account_currency }))
        (addInvoiceResponseFilter rid) addInvoiceExtract sr o := by
  unfold add_invoice
  dsimp only
  split
  · exact Or.inl rfl
  · split
    · exact Or.inl rfl
    · exact Or.inr rfl

/-- `swap` either rejects the input or runs the shared tail. -/
theorem swap_cases (uid : Nat) (rid : Uuid) (data : SwapData)
    (sr : Except Unit Unit) (o : RecvOutcome) :
    swap uid rid data sr o = invalidDataTrace
  ∨ swap uid rid data sr o =
      sendAndAwait 1 5 (Message.Api (Api.SwapRequest
        { req_id := rid
          uid := uid
          from_ := data.from_currency
          to_ := data.to_currency
          amount := data.amount
          quote_id := data.quote_id }))
        (swapResponseFilter rid) swapExtract sr o := by
  unfold swap
  split
  · exact Or.inl rfl
  · exact Or.inr rfl

/-- `quote` either rejects the input or runs the shared tail. -/
theorem quote_cases (uid : Nat) (rid : Uuid) (query : QuoteParams)
    (sr : Except Unit Unit) (o : RecvOutcome) :
    quote uid rid query sr o = invalidDataTrace
  ∨ quote uid rid query sr o =
      sendAndAwait 1 5 (Message.Api (Api.QuoteRequest
        { req_id := rid
          uid := uid
          from_ := query.from_currency
          to_ := query.to_currency
          amount := query.amount }))
        (quoteResponseFilter rid) quoteExtract sr o := by
  unfold quote
  split
  · exact Or.inl rfl
  · exact Or.inr rfl

/- ------------------------------------------------------------------ -/
/- The claims.                                                         -/
/- ------------------------------------------------------------------ -/

/-- C1: the balance endpoint's registered response filter does NOT compare
the inbound message's embedded correlation id with the minted one — its
guard is `get_balances.req_id == req_id`, the request's own id against
itself. Evaluated at the failing input: with minted id 0, a `Balances`
message embedding the different id 1 is still accepted (`true`), though
the claim (and the spec's scenario) requires it to be rejected. -/
theorem c1_balance_filter_accepts_mismatched_id :
    balanceResponseFilter { req_id := 0, uid := 7 } 0
      (Message.Api (Api.Balances { req_id := 1 })) = true
    ∧ (1 : Uuid) ≠ (0 : Uuid) :=
  ⟨rfl, by decide⟩

/-- C2 counterexample: after a successful transport send, the balance
endpoint returns `ServerResponseTimeout` when the reply channel closes
(`recv()` yields `Ok(None)`) — an outcome that occurs before the deadline,
not the deadline elapsing — so the timeout error is not returned only when
the 5-second deadline elapsed. -/
theorem c2_timeout_error_before_deadline :
    (balance 0 0 (Except.ok ()) RecvOutcome.closed).result
      = Except.error (ApiError.Comms CommsError.ServerResponseTimeout)
    ∧ RecvOutcome.closed ≠ RecvOutcome.timedOut :=
  ⟨rfl, by decide⟩

/-- C2 (amended): whenever an endpoint reaches the await (send succeeded
and validation passed), it returns `ServerResponseTimeout` iff the race did
not yield a delivered message matching the endpoint's expected response
pattern — the deadline elapsing, the channel closing, a channel-level
error, and a non-matching delivery all yield the timeout error. -/
theorem c2_amended_timeout_iff_no_matching_reply :
    (∀ uid rid sr o, (balance uid rid sr o).awaited = true →
      ((balance uid rid sr o).result
          = Except.error (ApiError.Comms CommsError.ServerResponseTimeout)
        ↔ matchedReply balanceExtract o = none))
  ∧ (∀ uid rid d sr o, (pay_invoice uid rid d sr o).awaited = true →
      ((pay_invoice uid rid d sr o).result
          = Except.error (ApiError.Comms CommsError.ServerResponseTimeout)
        ↔ matchedReply payInvoiceExtract o = none))
  ∧ (∀ uid rid q sr o, (add_invoice uid rid q sr o).awaited = true →
      ((add_invoice uid rid q sr o).result
          = Except.error (ApiError.Comms CommsError.ServerResponseTimeout)
        ↔ matchedReply addInvoiceExtract o = none))
  ∧ (∀ uid rid s sr o, (swap uid rid s sr o).awaited = true →
      ((swap uid rid s sr o).result
          = Except.error (ApiError.Comms CommsError.ServerResponseTimeout)
        ↔ matchedReply swapExtract o = none))
  ∧ (∀ uid rid q sr o, (quote uid rid q sr o).awaited = true →
      ((quote uid rid q sr o).result
          = Except.error (ApiError.Comms CommsError.ServerResponseTimeout)
        ↔ matchedReply quoteExtract o = none))
  ∧ (∀ rid sr o, (get_available_currencies rid sr o).awaited = true →
      ((get_available_currencies rid sr o).result
          = Except.error (ApiError.Comms CommsError.ServerResponseTimeout)
        ↔ matchedReply availableCurrenciesExtract o = none))
  ∧ (∀ rid sr o, (get_node_info rid sr o).awaited = true →
      ((get_node_info rid sr o).result
          = Except.error (ApiError.Comms CommsError.ServerResponseTimeout)
        ↔ matchedReply nodeInfoExtract o = none))
  ∧ (∀ rid p sr o, (get_query_route rid p sr o).awaited = true →
      ((get_query_route rid p sr o).result
          = Except.error (ApiError.Comms CommsError.ServerResponseTimeout)
        ↔ matchedReply queryRouteExtract o = none)) := by
  refine ⟨?_, ?_, ?_, ?_, ?_, ?_, ?_, ?_⟩
  · intro uid rid sr o h
    exact sendAndAwait_timeout_iff _ _ _ _ _ _ _ h
  · intro uid rid d sr o h
    rcases pay_invoice_cases uid rid d sr o with hc | hc | hc
    · rw [hc] at h; simp [invalidDataTrace] at h
    · rw [hc] at h; simp at h
    · rw [hc] at h ⊢; exact sendAndAwait_timeout_iff _ _ _ _ _ _ _ h
  · intro uid rid q sr o h
    rcases add_invoice_cases uid rid q sr o with hc | hc
    · rw [hc] at h; simp [invalidDataTrace] at h
    · rw [hc] at h ⊢; exact sendAndAwait_timeout_iff _ _ _ _ _ _ _ h
  · intro uid rid s sr o h
    rcases swap_cases uid rid s sr o with hc | hc
    · rw [hc] at h; simp [invalidDataTrace] at h
    · rw [hc] at h ⊢; exact sendAndAwait_timeout_iff _ _ _ _ _ _ _ h
  · intro uid rid q sr o h
    rcases quote_cases uid rid q sr o with hc | hc
    · rw [hc] at h; simp [invalidDataTrace] at h
    · rw [hc] at h ⊢; exact sendAndAwait_timeout_iff _ _ _ _ _ _ _ h
  · intro rid sr o h
    exact sendAndAwait_timeout_iff _ _ _ _ _ _ _ h
  · intro rid sr o h
    exact sendAndAwait_timeout_iff _ _ _ _ _ _ _ h
  · intro rid p sr o h
    exact sendAndAwait_timeout_iff _ _ _ _ _ _ _ h

/-- C2 witness: the amended theorem's balance conjunct at a concrete
timed-out await, with its hypothesis discharged by evaluation. -/
theorem c2_amended_timeout_iff_no_matching_reply_witness :
    ((balance 0 0 (Except.ok ()) RecvOutcome.timedOut).result
        = Except.error (ApiError.Comms CommsError.ServerResponseTimeout)
      ↔ matchedReply balanceExtract RecvOutcome.timedOut = none) :=
  c2_amended_timeout_iff_no_matching_reply.1 0 0 (Except.ok ()) RecvOutcome.timedOut rfl

/-- C3: when the transport send fails, every endpoint that reached the send
returns `FailedToSendMessage` at once — the reply channel is never awaited
and no deadline race is started — and the transport error kind is distinct
from the timeout error kind. -/
theorem c3_transport_failure_is_immediate_and_distinct :
    (∀ uid rid o, (balance uid rid (Except.error ()) o).sent.isSome = true →
        (balance uid rid (Except.error ()) o).result
            = Except.error (ApiError.Comms CommsError.FailedToSendMessage)
        ∧ (balance uid rid (Except.error ()) o).awaited = false
        ∧ (balance uid rid (Except.error ()) o).deadlineSecs = none)
  ∧ (∀ uid rid d o, (pay_invoice uid rid d (Except.error ()) o).sent.isSome = true →
        (pay_invoice uid rid d (Except.error ()) o).result
            = Except.error (ApiError.Comms CommsError.FailedToSendMessage)
        ∧ (pay_invoice uid rid d (Except.error ()) o).awaited = false
        ∧ (pay_invoice uid rid d (Except.error ()) o).deadlineSecs = none)
  ∧ (∀ uid rid q o, (add_invoice uid rid q (Except.error ()) o).sent.isSome = true →
        (add_invoice uid rid q (Except.error ()) o).result
            = Except.error (ApiError.Comms CommsError.FailedToSendMessage)
        ∧ (add_invoice uid rid q (Except.error ()) o).awaited = false
        ∧ (add_invoice uid rid q (Except.error ()) o).deadlineSecs = none)
  ∧ (∀ uid rid s o, (swap uid rid s (Except.error ()) o).sent.isSome = true →
        (swap uid rid s (Except.error ()) o).result
            = Except.error (ApiError.Comms CommsError.FailedToSendMessage)
        ∧ (swap uid rid s (Except.error ()) o).awaited = false
        ∧ (swap uid rid s (Except.error ()) o).deadlineSecs = none)
  ∧ (∀ uid rid q o, (quote uid rid q (Except.error ()) o).sent.isSome = true →
        (quote uid rid q (Except.error ()) o).result
            = Except.error (ApiError.Comms CommsError.FailedToSendMessage)
        ∧ (quote uid rid q (Except.error ()) o).awaited = false
        ∧ (quote uid rid q (Except.error ()) o).deadlineSecs = none)
  ∧ (∀ rid o, (get_available_currencies rid (Except.error ()) o).sent.isSome = true →
        (get_available_currencies rid (Except.error ()) o).result
            = Except.error (ApiError.Comms CommsError.FailedToSendMessage)
        ∧ (get_available_currencies rid (Except.error ()) o).awaited = false
        ∧ (get_available_currencies rid (Except.error ()) o).deadlineSecs = none)
  ∧ (∀ rid o, (get_node_info rid (Except.error ()) o).sent.isSome = true →
        (get_node_info rid (Except.error ()) o).result
            = Except.error (ApiError.Comms CommsError.FailedToSendMessage)
        ∧ (get_node_info rid (Except.error ()) o).awaited = false
        ∧ (get_node_info rid (Except.error ()) o).deadlineSecs = none)
  ∧ (∀ rid p o, (get_query_route rid p (Except.error ()) o).sent.isSome = true →
        (get_query_route rid p (Except.error ()) o).result
            = Except.error (ApiError.Comms CommsError.FailedToSendMessage)
        ∧ (get_query_route rid p (Except.error ()) o).awaited = false
        ∧ (get_query_route rid p (Except.error ()) o).deadlineSecs = none)
  ∧ CommsError.FailedToSendMessage ≠ CommsError.ServerResponseTimeout := by
  refine ⟨?_, ?_, ?_, ?_, ?_, ?_, ?_, ?_, by decide⟩
  · intro uid rid o _
    exact ⟨rfl, rfl, rfl⟩
  · intro uid rid d o h
    rcases pay_invoice_cases uid rid d (Except.error ()) o with hc | hc | hc
    · rw [hc] at h; simp [invalidDataTrace] at h
    · rw [hc] at h; simp at h
    · rw [hc]; exact ⟨rfl, rfl, rfl⟩
  · intro uid rid q o h
    rcases add_invoice_cases uid rid q (Except.error ()) o with hc | hc
    · rw [hc] at h; simp [invalidDataTrace] at h
    · rw [hc]; exact ⟨rfl, rfl, rfl⟩
  · intro uid rid s o h
    rcases swap_cases uid rid s (Except.error ()) o with hc | hc
    · rw [hc] at h; simp [invalidDataTrace] at h
    · rw [hc]; exact ⟨rfl, rfl, rfl⟩
  · intro uid rid q o h
    rcases quote_cases uid rid q (Except.error ()) o with hc | hc
    · rw [hc] at h; simp [invalidDataTrace] at h
    · rw [hc]; exact ⟨rfl, rfl, rfl⟩
  · intro rid o _
    exact ⟨rfl, rfl, rfl⟩
  · intro rid o _
    exact ⟨rfl, rfl, rfl⟩
  · intro rid p o _
    exact ⟨rfl, rfl, rfl⟩

/-- C3 witness: the balance conjunct at a concrete failed send. -/
theorem c3_transport_failure_is_immediate_and_distinct_witness :
    (balance 0 0 (Except.error ()) RecvOutcome.timedOut).result
        = Except.error (ApiError.Comms CommsError.FailedToSendMessage)
    ∧ (balance 0 0 (Except.error ()) RecvOutcome.timedOut).awaited = false
    ∧ (balance 0 0 (Except.error ()) RecvOutcome.timedOut).deadlineSecs = none :=
  c3_transport_failure_is_immediate_and_distinct.1 0 0 RecvOutcome.timedOut rfl

/-- C4: for each request/response endpoint other than balance, the
registered response filter accepts an inbound message exactly when it is
that endpoint's expected response variant and the response's embedded
`req_id` equals the id minted for the call. -/
theorem c4_filters_accept_exactly_matching_responses :
    (∀ rid m, payInvoiceResponseFilter rid m = true ↔
        ∃ r : PaymentResponse, m = Message.Api (Api.PaymentResponse r) ∧ r.req_id = rid)
  ∧ (∀ rid m, addInvoiceResponseFilter rid m = true ↔
        ∃ r : InvoiceResponse, m = Message.Api (Api.InvoiceResponse r) ∧ r.req_id = rid)
  ∧ (∀ rid m, swapResponseFilter rid m = true ↔
        ∃ r : SwapResponse, m = Message.Api (Api.SwapResponse r) ∧ r.req_id = rid)
  ∧ (∀ rid m, quoteResponseFilter rid m = true ↔
        ∃ r : QuoteResponse, m = Message.Api (Api.QuoteResponse r) ∧ r.req_id = rid)
  ∧ (∀ rid m, availableCurrenciesResponseFilter rid m = true ↔
        ∃ r : AvailableCurrenciesResponse,
          m = Message.Api (Api.AvailableCurrenciesResponse r) ∧ r.req_id = rid)
  ∧ (∀ rid m, nodeInfoResponseFilter rid m = true ↔
        ∃ r : GetNodeInfoResponse, m = Message.Api (Api.GetNodeInfoResponse r) ∧ r.req_id = rid)
  ∧ (∀ rid m, queryRouteResponseFilter rid m = true ↔
        ∃ r : QueryRouteResponse, m = Message.Api (Api.QueryRouteResponse r) ∧ r.req_id = rid) := by
  refine ⟨?_, ?_, ?_, ?_, ?_, ?_, ?_⟩ <;>
    · intro rid m
      rcases m with ⟨a⟩
      cases a <;> simp [payInvoiceResponseFilter, addInvoiceResponseFilter,
        swapResponseFilter, quoteResponseFilter, availableCurrenciesResponseFilter,
        nodeInfoResponseFilter, queryRouteResponseFilter]

/-- C5: for every endpoint, the outbound message inside the transported
envelope embeds exactly the correlation id minted for the call, and the
envelope's registered filter is the endpoint's filter closed over that
same id by value. -/
theorem c5_envelope_carries_minted_id :
    (∀ uid rid sr o env, (balance uid rid sr o).sent = some env →
        (∃ a, env.message = Message.Api a ∧ a.reqId = rid)
        ∧ env.response_filter
            = some (balanceResponseFilter { req_id := rid, uid := uid } rid))
  ∧ (∀ uid rid d sr o env, (pay_invoice uid rid d sr o).sent = some env →
        (∃ a, env.message = Message.Api a ∧ a.reqId = rid)
        ∧ env.response_filter = some (payInvoiceResponseFilter rid))
  ∧ (∀ uid rid q sr o env, (add_invoice uid rid q sr o).sent = some env →
        (∃ a, env.message = Message.Api a ∧ a.reqId = rid)
        ∧ env.response_filter = some (addInvoiceResponseFilter rid))
  ∧ (∀ uid rid s sr o env, (swap uid rid s sr o).sent = some env →
        (∃ a, env.message = Message.Api a ∧ a.reqId = rid)
        ∧ env.response_filter = some (swapResponseFilter rid))
  ∧ (∀ uid rid q sr o env, (quote uid rid q sr o).sent = some env →
        (∃ a, env.message = Message.Api a ∧ a.reqId = rid)
        ∧ env.response_filter = some (quoteResponseFilter rid))
  ∧ (∀ rid sr o env, (get_available_currencies rid sr o).sent = some env →
        (∃ a, env.message = Message.Api a ∧ a.reqId = rid)
        ∧ env.response_filter = some (availableCurrenciesResponseFilter rid))
  ∧ (∀ rid sr o env, (get_node_info rid sr o).sent = some env →
        (∃ a, env.message = Message.Api a ∧ a.reqId = rid)
        ∧ env.response_filter = some (nodeInfoResponseFilter rid))
  ∧ (∀ rid p sr o env, (get_query_route rid p sr o).sent = some env →
        (∃ a, env.message = Message.Api a ∧ a.reqId = rid)
        ∧ env.response_filter = some (queryRouteResponseFilter rid)) := by
  refine ⟨?_, ?_, ?_, ?_, ?_, ?_, ?_, ?_⟩
  · intro uid rid sr o env h
    rw [show (balance uid rid sr o).sent = _ from
        sendAndAwait_sent 1 5 _ _ _ sr o] at h
    cases h
    exact ⟨⟨_, rfl, rfl⟩, rfl⟩
  · intro uid rid d sr o env h
    rcases pay_invoice_cases uid rid d sr o with hc | hc | hc
    · rw [hc] at h; simp [invalidDataTrace] at h
    · rw [hc] at h; simp at h
    · rw [hc, sendAndAwait_sent] at h
      cases h
      exact ⟨⟨_, rfl, rfl⟩, rfl⟩
  · intro uid rid q sr o env h
    rcases add_invoice_cases uid rid q sr o with hc | hc
    · rw [hc] at h; simp [invalidDataTrace] at h
    · rw [hc, sendAndAwait_sent] at h
      cases h
      exact ⟨⟨_, rfl, rfl⟩, rfl⟩
  · intro uid rid s sr o env h
    rcases swap_cases uid rid s sr o with hc | hc
    · rw [hc] at h; simp [invalidDataTrace] at h
    · rw [hc, sendAndAwait_sent] at h
      cases h
      exact ⟨⟨_, rfl, rfl⟩, rfl⟩
  · intro uid rid q sr o env h
    rcases quote_cases uid rid q sr o with hc | hc
    · rw [hc] at h; simp [invalidDataTrace] at h
    · rw [hc, sendAndAwait_sent] at h
      cases h
      exact ⟨⟨_, rfl, rfl⟩, rfl⟩
  · intro rid sr o env h
    rw [show (get_available_currencies rid sr o).sent = _ from
        sendAndAwait_sent 1 5 _ _ _ sr o] at h
    cases h
    exact ⟨⟨_, rfl, rfl⟩, rfl⟩
  · intro rid sr o env h
    rw [show (get_node_info rid sr o).sent = _ from
        sendAndAwait_sent 1 5 _ _ _ sr o] at h
    cases h
    exact ⟨⟨_, rfl, rfl⟩, rfl⟩
  · intro rid p sr o env h
    rw [show (get_query_route rid p sr o).sent = _ from
        sendAndAwait_sent 1 5 _ _ _ sr o] at h
    cases h
    exact ⟨⟨_, rfl, rfl⟩, rfl⟩

/-- C5 witness: the balance conjunct at uid 3, minted id 9, a successful
send and a timed-out await, with the concrete envelope the call sent. -/
theorem c5_envelope_carries_minted_id_witness :
    (∃ a, (Message.Api (Api.GetBalances { req_id := 9, uid := 3 }))
            = Message.Api a ∧ a.reqId = 9)
    ∧ (some (balanceResponseFilter { req_id := 9, uid := 3 } 9)
        : Option (Message → Bool))
        = some (balanceResponseFilter { req_id := 9, uid := 3 } 9) :=
  c5_envelope_carries_minted_id.1 3 9 (Except.ok ()) RecvOutcome.timedOut
    { message := Message.Api (Api.GetBalances { req_id := 9, uid := 3 })
      response_tx := some ()
      response_filter := some (balanceResponseFilter { req_id := 9, uid := 3 } 9) }
    rfl

/-- C6: every request/response call site races the reply against the same
fixed deadline: whenever an endpoint reaches its `timeout` call, the
duration passed is exactly 5 seconds. -/
theorem c6_deadline_is_five_seconds_everywhere :
    (∀ uid rid sr o d, (balance uid rid sr o).deadlineSecs = some d → d = 5)
  ∧ (∀ uid rid dt sr o d, (pay_invoice uid rid dt sr o).deadlineSecs = some d → d = 5)
  ∧ (∀ uid rid q sr o d, (add_invoice uid rid q sr o).deadlineSecs = some d → d = 5)
  ∧ (∀ uid rid s sr o d, (swap uid rid s sr o).deadlineSecs = some d → d = 5)
  ∧ (∀ uid rid q sr o d, (quote uid rid q sr o).deadlineSecs = some d → d = 5)
  ∧ (∀ rid sr o d, (get_available_currencies rid sr o).deadlineSecs = some d → d = 5)
  ∧ (∀ rid sr o d, (get_node_info rid sr o).deadlineSecs = some d → d = 5)
  ∧ (∀ rid p sr o d, (get_query_route rid p sr o).deadlineSecs = some d → d = 5)
  ∧ (∀ uid rid o, (balance uid rid (Except.ok ()) o).deadlineSecs = some 5)
  ∧ (∀ rid o, (get_available_currencies rid (Except.ok ()) o).deadlineSecs = some 5)
  ∧ (∀ rid o, (get_node_info rid (Except.ok ()) o).deadlineSecs = some 5)
  ∧ (∀ rid p o, (get_query_route rid p (Except.ok ()) o).deadlineSecs = some 5) := by
  refine ⟨?_, ?_, ?_, ?_, ?_, ?_, ?_, ?_, ?_, ?_, ?_, ?_⟩
  · intro uid rid sr o d h
    exact sendAndAwait_deadline _ _ _ _ _ sr o d h
  · intro uid rid dt sr o d h
    rcases pay_invoice_cases uid rid dt sr o with hc | hc | hc
    · rw [hc] at h; simp [invalidDataTrace] at h
    · rw [hc] at h; simp at h
    · rw [hc] at h; exact sendAndAwait_deadline _ _ _ _ _ sr o d h
  · intro uid rid q sr o d h
    rcases add_invoice_cases uid rid q sr o with hc | hc
    · rw [hc] at h; simp [invalidDataTrace] at h
    · rw [hc] at h; exact sendAndAwait_deadline _ _ _ _ _ sr o d h
  · intro uid rid s sr o d h
    rcases swap_cases uid rid s sr o with hc | hc
    · rw [hc] at h; simp [invalidDataTrace] at h
    · rw [hc] at h; exact sendAndAwait_deadline _ _ _ _ _ sr o d h
  · intro uid rid q sr o d h
    rcases quote_cases uid rid q sr o with hc | hc
    · rw [hc] at h; simp [invalidDataTrace] at h
    · rw [hc] at h; exact sendAndAwait_deadline _ _ _ _ _ sr o d h
  · intro rid sr o d h
    exact sendAndAwait_deadline _ _ _ _ _ sr o d h
  · intro rid sr o d h
    exact sendAndAwait_deadline _ _ _ _ _ sr o d h
  · intro rid p sr o d h
    exact sendAndAwait_deadline _ _ _ _ _ sr o d h
  · intro uid rid o
    exact sendAndAwait_deadline_ok _ _ _ _ _ o
  · intro rid o
    exact sendAndAwait_deadline_ok _ _ _ _ _ o
  · intro rid o
    exact sendAndAwait_deadline_ok _ _ _ _ _ o
  · intro rid p o
    exact sendAndAwait_deadline_ok _ _ _ _ _ o

/-- C7: every endpoint allocates its reply channel with capacity exactly
one, and a capacity-one channel buffers at most one value: a send into it
succeeds only when the buffer is empty, leaving exactly the one value. -/
theorem c7_reply_channel_capacity_is_one :
    (∀ uid rid sr o c, (balance uid rid sr o).channelCapacity = some c → c = 1)
  ∧ (∀ uid rid dt sr o c, (pay_invoice uid rid dt sr o).channelCapacity = some c → c = 1)
  ∧ (∀ uid rid q sr o c, (add_invoice uid rid q sr o).channelCapacity = some c → c = 1)
  ∧ (∀ uid rid s sr o c, (swap uid rid s sr o).channelCapacity = some c → c = 1)
  ∧ (∀ uid rid q sr o c, (quote uid rid q sr o).channelCapacity = some c → c = 1)
  ∧ (∀ rid sr o c, (get_available_currencies rid sr o).channelCapacity = some c → c = 1)
  ∧ (∀ rid sr o c, (get_node_info rid sr o).channelCapacity = some c → c = 1)
  ∧ (∀ rid p sr o c, (get_query_route rid p sr o).channelCapacity = some c → c = 1)
  ∧ (∀ uid rid sr o, (balance uid rid sr o).channelCapacity = some 1)
  ∧ (∀ buf m buf2, channelSend 1 buf m = some buf2 → buf = [] ∧ buf2 = [m]) := by
  have hcap : ∀ (msg : Message) (rf : Message → Bool)
      (ex : Message → Option JsonBody) (sr : Except Unit Unit) (o : RecvOutcome)
      (c : Nat), (sendAndAwait 1 5 msg rf ex sr o).channelCapacity = some c → c = 1 := by
    intro msg rf ex sr o c h
    rw [sendAndAwait_capacity] at h
    exact (Option.some_inj.mp h).symm
  refine ⟨?_, ?_, ?_, ?_, ?_, ?_, ?_, ?_, ?_, ?_⟩
  · intro uid rid sr o c h
    exact hcap _ _ _ sr o c h
  · intro uid rid dt sr o c h
    rcases pay_invoice_cases uid rid dt sr o with hc | hc | hc
    · rw [hc] at h; simp [invalidDataTrace] at h
    · rw [hc] at h; simp at h
    · rw [hc] at h; exact hcap _ _ _ sr o c h
  · intro uid rid q sr o c h
    rcases add_invoice_cases uid rid q sr o with hc | hc
    · rw [hc] at h; simp [invalidDataTrace] at h
    · rw [hc] at h; exact hcap _ _ _ sr o c h
  · intro uid rid s sr o c h
    rcases swap_cases uid rid s sr o with hc | hc
    · rw [hc] at h; simp [invalidDataTrace] at h
    · rw [hc] at h; exact hcap _ _ _ sr o c h
  · intro uid rid q sr o c h
    rcases quote_cases uid rid q sr o with hc | hc
    · rw [hc] at h; simp [invalidDataTrace] at h
    · rw [hc] at h; exact hcap _ _ _ sr o c h
  · intro rid sr o c h
    exact hcap _ _ _ sr o c h
  · intro rid sr o c h
    exact hcap _ _ _ sr o c h
  · intro rid p sr o c h
    exact hcap _ _ _ sr o c h
  · intro uid rid sr o
    exact sendAndAwait_capacity _ _ _ _ _ sr o
  · intro buf m buf2 h
    unfold channelSend at h
    split at h
    · rename_i hlt
      have hnil : buf = [] := List.length_eq_zero.mp (by omega)
      cases h
      exact ⟨hnil, by rw [hnil]; rfl⟩
    · cases h

/-- C8: a non-positive amount makes each amount-taking endpoint return
`ApiError::Request(RequestError::InvalidDataSupplied)` before anything is
sent: no envelope reaches the bus, no channel is allocated, and no await
happens. -/
theorem c8_nonpositive_amount_rejected_before_send :
    (∀ uid rid d sr o a, d.amount = some a → a ≤ 0 →
        (pay_invoice uid rid d sr o).result
            = Except.error (ApiError.Request RequestError.InvalidDataSupplied)
        ∧ (pay_invoice uid rid d sr o).sent = none
        ∧ (pay_invoice uid rid d sr o).channelCapacity = none
        ∧ (pay_invoice uid rid d sr o).awaited = false)
  ∧ (∀ uid rid q sr o, q.amount ≤ 0 →
        (add_invoice uid rid q sr o).result
            = Except.error (ApiError.Request RequestError.InvalidDataSupplied)
        ∧ (add_invoice uid rid q sr o).sent = none
        ∧ (add_invoice uid rid q sr o).channelCapacity = none
        ∧ (add_invoice uid rid q sr o).awaited = false)
  ∧ (∀ uid rid s sr o, s.amount ≤ 0 →
        (swap uid rid s sr o).result
            = Except.error (ApiError.Request RequestError.InvalidDataSupplied)
        ∧ (swap uid rid s sr o).sent = none
        ∧ (swap uid rid s sr o).channelCapacity = none
        ∧ (swap uid rid s sr o).awaited = false)
  ∧ (∀ uid rid q sr o, q.amount ≤ 0 →
        (quote uid rid q sr o).result
            = Except.error (ApiError.Request RequestError.InvalidDataSupplied)
        ∧ (quote uid rid q sr o).sent = none
        ∧ (quote uid rid q sr o).channelCapacity = none
        ∧ (quote uid rid q sr o).awaited = false) := by
  refine ⟨?_, ?_, ?_, ?_⟩
  · intro uid rid d sr o a hsome hle
    have hbad : amountNonPositive d.amount = true := by
      rw [hsome]; simpa [amountNonPositive] using hle
    simp [pay_invoice, hbad, invalidDataTrace]
  · intro uid rid q sr o hle
    simp [add_invoice, hle, invalidDataTrace]
  · intro uid rid s sr o hle
    simp [swap, hle, invalidDataTrace]
  · intro uid rid q sr o hle
    simp [quote, hle, invalidDataTrace]

/-- C8 witness: the add_invoice conjunct at the concrete amount 0. -/
theorem c8_nonpositive_amount_rejected_before_send_witness :
    (add_invoice 0 0
        { amount := 0, meta := none, account_id := none, currency := none,
          target_account_currency := none }
        (Except.ok ()) RecvOutcome.timedOut).result
        = Except.error (ApiError.Request RequestError.InvalidDataSupplied)
    ∧ (add_invoice 0 0
        { amount := 0, meta := none, account_id := none, currency := none,
          target_account_currency := none }
        (Except.ok ()) RecvOutcome.timedOut).sent = none
    ∧ (add_invoice 0 0
        { amount := 0, meta := none, account_id := none, currency := none,
          target_account_currency := none }
        (Except.ok ()) RecvOutcome.timedOut).channelCapacity = none
    ∧ (add_invoice 0 0
        { amount := 0, meta := none, account_id := none, currency := none,
          target_account_currency := none }
        (Except.ok ()) RecvOutcome.timedOut).awaited = false :=
  c8_nonpositive_amount_rejected_before_send.2.1 0 0
    { amount := 0, meta := none, account_id := none, currency := none,
      target_account_currency := none }
    (Except.ok ()) RecvOutcome.timedOut (le_refl 0)

/-- The concrete C9 counterexample input: no payment request, no recipient,
but a (negative) amount. -/
def c9Input : PayInvoiceData :=
  { payment_request := none, currency := none, recipient := none, amount := some (-1) }

/-- C9 counterexample: with neither a payment_request nor a recipient but
amount `-1`, `pay_invoice` does not return the 200-with-error-JSON body the
claim promises: the amount validation runs first and returns
`ApiError::Request(RequestError::InvalidDataSupplied)`. -/
theorem c9_missing_target_not_always_http200 :
    c9Input.payment_request = none ∧ c9Input.recipient = none
    ∧ (pay_invoice 0 0 c9Input (Except.ok ()) RecvOutcome.timedOut).result
        = Except.error (ApiError.Request RequestError.InvalidDataSupplied) :=
  ⟨rfl, rfl, rfl⟩

/-- C9 (amended): if a pay_invoice request supplies neither a
payment_request nor a recipient, and every supplied amount passes the
positivity check, the endpoint returns HTTP 200 whose JSON body carries
the error string, and no envelope is sent, no channel allocated, no await
performed. -/
theorem c9_amended_missing_target_http200 (uid : Nat) (rid : Uuid)
    (d : PayInvoiceData) (sr : Except Unit Unit) (o : RecvOutcome)
    (hp : d.payment_request = none) (hr : d.recipient = none)
    (ha : ∀ a, d.amount = some a → ¬a ≤ 0) :
    (pay_invoice uid rid d sr o).result
        = Except.ok (HttpResponse.okJson (JsonBody.errorText payNoTargetText))
    ∧ (pay_invoice uid rid d sr o).sent = none
    ∧ (pay_invoice uid rid d sr o).channelCapacity = none
    ∧ (pay_invoice uid rid d sr o).awaited = false := by
  have hok : amountNonPositive d.amount = false := by
    cases hm : d.amount with
    | none => rfl
    | some a => simpa [amountNonPositive] using ha a hm
  simp [pay_invoice, hok, hp, hr, strTooLong]

/-- C9 witness: the amended theorem at the all-`none` input. -/
theorem c9_amended_missing_target_http200_witness :
    (pay_invoice 0 0
        { payment_request := none, currency := none, recipient := none, amount := none }
        (Except.ok ()) RecvOutcome.timedOut).result
        = Except.ok (HttpResponse.okJson (JsonBody.errorText payNoTargetText))
    ∧ (pay_invoice 0 0
        { payment_request := none, currency := none, recipient := none, amount := none }
        (Except.ok ()) RecvOutcome.timedOut).sent = none
    ∧ (pay_invoice 0 0
        { payment_request := none, currency := none, recipient := none, amount := none }
        (Except.ok ()) RecvOutcome.timedOut).channelCapacity = none
    ∧ (pay_invoice 0 0
        { payment_request := none, currency := none, recipient := none, amount := none }
        (Except.ok ()) RecvOutcome.timedOut).awaited = false :=
  c9_amended_missing_target_http200 0 0
    { payment_request := none, currency := none, recipient := none, amount := none }
    (Except.ok ()) RecvOutcome.timedOut rfl rfl (fun _ h => Option.noConfusion h)

/-- `replaceChar` distributes over concatenation. -/
theorem replaceChar_append (t : Char) (rep a b : Str) :
    replaceChar t rep (a ++ b) = replaceChar t rep a ++ replaceChar t rep b := by
  induction a with
  | nil => rfl
  | cons c rest ih =>
      simp only [List.cons_append, replaceChar, List.append_eq]
      split
      · rw [ih, List.append_assoc]
      · rw [ih]; rfl

/-- The two sequential `replace` calls equal the claim's one simultaneous
escaping pass: the first pass introduces only `\` and `%`, neither of which
the second pass touches. -/
theorem escapeSearchText_eq_spec (text : Str) :
    escapeSearchText text = escapeSearchTextSpec text := by
  induction text with
  | nil => rfl
  | cons c rest ih =>
      unfold escapeSearchText at ih ⊢
      simp only [replaceChar, escapeSearchTextSpec]
      by_cases h1 : c = '%'
      · subst h1
        rw [if_pos rfl, replaceChar_append, ih,
          show replaceChar '_' ['\\', '_'] ['\\', '%'] = ['\\', '%'] from by decide]
        simp
      · rw [if_neg h1]
        simp only [replaceChar]
        by_cases h2 : c = '_'
        · subst h2
          rw [if_pos rfl, ih]
          simp [h1]
        · rw [if_neg h2, ih]
          simp [h1, h2]

/-- C10: `search_user` rejects a text shorter than 3 bytes with
`InvalidDataSupplied` and never queries the database; any pattern it does
pass to the database search is the input with every `%` escaped to `\%`
and every `_` escaped to `\_`; and when the connection and query succeed,
the database is indeed queried with that escaped pattern. -/
theorem c10_search_user_length_gate_and_escaping :
    (∀ text db, strLen text < MINIMUM_PATTERN_LENGTH →
        (search_user text db).result
            = Except.error (ApiError.Request RequestError.InvalidDataSupplied)
        ∧ (search_user text db).queried = none)
  ∧ (∀ text db p, (search_user text db).queried = some p →
        p = escapeSearchTextSpec text)
  ∧ (∀ text users, ¬strLen text < MINIMUM_PATTERN_LENGTH →
        (search_user text (SearchDb.found users)).queried
          = some (escapeSearchTextSpec text)) := by
  refine ⟨?_, ?_, ?_⟩
  · intro text db hshort
    simp [search_user, hshort]
  · intro text db p h
    by_cases hshort : strLen text < MINIMUM_PATTERN_LENGTH
    · simp [search_user, hshort] at h
    · cases db with
      | noConn => simp [search_user, hshort] at h
      | queryFailed =>
          simp [search_user, hshort] at h
          rw [← h, escapeSearchText_eq_spec]
      | found users =>
          simp [search_user, hshort] at h
          rw [← h, escapeSearchText_eq_spec]
  · intro text users hlong
    simp [search_user, hlong, escapeSearchText_eq_spec]

/-- C10 witness: the length gate at the one-byte text `"a"`, and the
escaping at the concrete text `"ab%"`, whose queried pattern is
`"ab\%"`. -/
theorem c10_search_user_length_gate_and_escaping_witness :
    ((search_user ['a'] SearchDb.noConn).result
        = Except.error (ApiError.Request RequestError.InvalidDataSupplied)
      ∧ (search_user ['a'] SearchDb.noConn).queried = none)
    ∧ (['a', 'b', '\\', '%'] : Str) = escapeSearchTextSpec ['a', 'b', '%'] :=
  ⟨c10_search_user_length_gate_and_escaping.1 ['a'] SearchDb.noConn (by decide),
   c10_search_user_length_gate_and_escaping.2.1 ['a', 'b', '%']
     (SearchDb.found []) ['a', 'b', '\\', '%'] rfl⟩

end Lndhubx
